import Mathlib

/-!
Shallow embedding of the vault indexer's event-decoding and
state-synchronization pipeline, together with theorems checking the
specification's claims against it.

Source layout:
* `src/indexer/src/main.rs` — the main implementation: `VaultEvent`,
  `VaultState`, `VaultIndexer::parse_vault_event`, `VaultIndexer::get_vault_state`,
  `VaultIndexer::run` (a `tokio::select!` loop over a block stream and a log
  stream), `save_event`, `save_state`.
* `src/vault-indexer/crates/indexer/src/vault.rs` — a second variant of the
  state reader with extended fields.

Modelling conventions:
* Machine integers (`U256`, `u64`) are `Nat`; byte strings are `List Nat`
  (each element a byte value).  `H256` values are byte lists of length 32 (a
  Rust type invariant, carried as a hypothesis where a theorem needs it).
* Rust panics are modelled explicitly by the `PanicOr` type; Rust `Result`
  is `Except String`.  A function whose Rust signature is
  `fn f(..) -> Result<T>` and whose body can panic is embedded as
  `PanicOr (Except String T)`.
* `ethers`' `.call()` without a block pin executes `eth_call` against the
  chain's latest block at the moment the call is made; the environment
  records the head height observed by each such call.
* The filesystem written by `std::fs::write` is a finite map from file name
  to content, with overwrite semantics; file contents are modelled by the
  serialized struct value itself (`serde_json` serialization of these
  structs is injective and never fails).
* `keccak256` is implemented in full (Keccak-f[1600], rate 1088,
  multi-rate padding), matching `ethers::core::utils::keccak256`.
-/

set_option maxRecDepth 100000

namespace VaultIndexer

/-! ### Keccak-256 (ethers::core::utils::keccak256) -/

/-- Mask keeping the low 64 bits of a natural number. -/
def MASK64 : Nat := 2 ^ 64 - 1

/-- Rotate a 64-bit word left by `n` bits. -/
def rotl64 (x n : Nat) : Nat := ((x <<< n) ||| (x >>> (64 - n))) &&& MASK64

/-- Read lane `(x, y)` of a Keccak state (25 lanes, index `x + 5*y`). -/
def kGet (st : List Nat) (x y : Nat) : Nat := st.getD (x % 5 + 5 * (y % 5)) 0

/-- Keccak θ step. -/
def theta (st : List Nat) : List Nat :=
  let c := fun x => kGet st x 0 ^^^ kGet st x 1 ^^^ kGet st x 2 ^^^ kGet st x 3 ^^^ kGet st x 4
  let d := fun x => c ((x + 4) % 5) ^^^ rotl64 (c ((x + 1) % 5)) 1
  (List.range 25).map fun i => st.getD i 0 ^^^ d (i % 5)

/-- Keccak ρ rotation offsets, one row per `y`, indexed `x + 5*y` after
flattening. -/
def rhoOffsets : List Nat :=
  [[0, 1, 62, 28, 27],
   [36, 44, 6, 55, 20],
   [3, 10, 43, 25, 39],
   [41, 45, 15, 21, 8],
   [18, 2, 61, 56, 14]].flatten

/-- Keccak ρ and π steps combined: output lane `(x', y')` is the rotated
input lane `((x' + 3y') mod 5, x')`. -/
def rhoPi (st : List Nat) : List Nat :=
  (List.range 25).map fun i =>
    let xp := i % 5
    let yp := i / 5
    let x := (xp + 3 * yp) % 5
    let y := xp
    rotl64 (kGet st x y) (rhoOffsets.getD (x + 5 * y) 0)

/-- Keccak χ step. -/
def chi (st : List Nat) : List Nat :=
  (List.range 25).map fun i =>
    let x := i % 5
    let y := i / 5
    kGet st x y ^^^ ((kGet st (x + 1) y ^^^ MASK64) &&& kGet st (x + 2) y)

/-- Keccak ι round constants (in decimal; two per line, rounds 0–23). -/
def roundConstants : List Nat :=
  [1, 32898,
   9223372036854808714, 9223372039002292224,
   32907, 2147483649,
   9223372039002292353, 9223372036854808585,
   138, 136,
   2147516425, 2147483658,
   2147516555, 9223372036854775947,
   9223372036854808713, 9223372036854808579,
   9223372036854808578, 9223372036854775936,
   32778, 9223372039002259466,
   9223372039002292353, 9223372036854808704,
   2147483649, 9223372039002292232]

/-- One Keccak round: θ, ρ, π, χ, then ι (xor the round constant into lane 0). -/
def keccakRound (st : List Nat) (rc : Nat) : List Nat :=
  match chi (rhoPi (theta st)) with
  | [] => []
  | a :: rest => (a ^^^ rc) :: rest

/-- The Keccak-f[1600] permutation (24 rounds). -/
def keccakF (st : List Nat) : List Nat := roundConstants.foldl keccakRound st

/-- Multi-rate padding for rate 136 bytes: append `0x01`, zero fill, set the
final `0x80` bit (a single `0x81` byte when only one byte of padding fits). -/
def padKeccak (msg : List Nat) : List Nat :=
  let padLen := 136 - msg.length % 136
  if padLen = 1 then msg ++ [0x81]
  else msg ++ [0x01] ++ List.replicate (padLen - 2) 0 ++ [0x80]

/-- Load a little-endian 64-bit lane from up to eight bytes. -/
def bytesToLane (bs : List Nat) : Nat := bs.foldr (fun b acc => acc * 256 + b) 0

/-- Absorb one 136-byte block into the state and permute. -/
def absorbBlock (st : List Nat) (block : List Nat) : List Nat :=
  keccakF ((List.range 25).map fun i =>
    if i < 17 then st.getD i 0 ^^^ bytesToLane ((block.drop (8 * i)).take 8) else st.getD i 0)

/-- Serialize one 64-bit lane to eight little-endian bytes. -/
def laneToBytes (lane : Nat) : List Nat :=
  (List.range 8).map fun i => (lane >>> (8 * i)) &&& 255

/-- Keccak-256 of a byte string (the hash used for event-signature topics). -/
def keccak256 (msg : List Nat) : List Nat :=
  let padded := padKeccak msg
  let st := (List.range (padded.length / 136)).foldl
    (fun st i => absorbBlock st ((padded.drop (136 * i)).take 136)) (List.replicate 25 0)
  ((List.range 4).map fun i => laneToBytes (st.getD i 0)).flatten

/-- UTF-8 bytes of an ASCII string (all signature strings are ASCII). -/
def asciiBytes (s : String) : List Nat := s.data.map Char.toNat

/-! ### Formatting helpers (`format!` calls in the source) -/

/-- Lower-case hex digit for a value below 16. -/
def hexDigit (n : Nat) : Char := if n < 10 then Char.ofNat (48 + n) else Char.ofNat (87 + n)

/-- Two-character lower-case hex rendering of one byte. -/
def byteHex (b : Nat) : List Char := [hexDigit (b / 16), hexDigit (b % 16)]

/-- Debug formatting of an `H256`: `0x` followed by the bytes in lower-case
hex, as produced by the Rust `format!` with the debug formatter. -/
def formatH256 (bytes : List Nat) : String :=
  "0x" ++ String.mk (bytes.foldr (fun b acc => byteHex b ++ acc) [])

/-! ### Panic and Result modelling -/

/-- Outcome of a Rust computation that can panic: either a value or a panic
with its message. -/
inductive PanicOr (α : Type) where
  | panic (msg : String)
  | value (a : α)
deriving DecidableEq

/-- Sequence two possibly-panicking computations. -/
def PanicOr.bind {α β : Type} : PanicOr α → (α → PanicOr β) → PanicOr β
  | .panic m, _ => .panic m
  | .value a, f => f a

instance : Monad PanicOr where
  pure := PanicOr.value
  bind := PanicOr.bind

instance {ε α : Type} [DecidableEq ε] [DecidableEq α] : DecidableEq (Except ε α)
  | .error a, .error b =>
    if h : a = b then .isTrue (by subst h; rfl)
    else .isFalse (by intro hx; injection hx; contradiction)
  | .error _, .ok _ => .isFalse (by intro hx; injection hx)
  | .ok _, .error _ => .isFalse (by intro hx; injection hx)
  | .ok a, .ok b =>
    if h : a = b then .isTrue (by subst h; rfl)
    else .isFalse (by intro hx; injection hx; contradiction)

/-- Rust `Vec` indexing `xs[i]`: panics when the index is out of bounds. -/
def vecIndex {α : Type} (xs : List α) (i : Nat) : PanicOr α :=
  match xs.get? i with
  | some x => .value x
  | none => .panic "index out of bounds"

/-- Rust slicing `&xs[..i]`: panics when `i` exceeds the length. -/
def sliceTo (xs : List Nat) (i : Nat) : PanicOr (List Nat) :=
  if i ≤ xs.length then .value (xs.take i) else .panic "range end index out of range"

/-- Rust slicing `&xs[i..]`: panics when `i` exceeds the length. -/
def sliceFrom (xs : List Nat) (i : Nat) : PanicOr (List Nat) :=
  if i ≤ xs.length then .value (xs.drop i) else .panic "range start index out of range"

/-- `Address::from_slice`: panics unless the slice is exactly 20 bytes. -/
def addressFromSlice (xs : List Nat) : PanicOr (List Nat) :=
  if xs.length = 20 then .value xs else .panic "invalid slice length for Address"

/-- `U256::from_big_endian`: panics when the slice is longer than 32 bytes,
otherwise reads the bytes as one big-endian integer. -/
def u256FromBigEndian (xs : List Nat) : PanicOr Nat :=
  if xs.length ≤ 32 then .value (xs.foldl (fun acc b => acc * 256 + b) 0) else
    .panic "slice length exceeds 32 bytes"

/-- `Option::unwrap`: panics on `None`. -/
def optionUnwrap {α : Type} : Option α → PanicOr α
  | some a => .value a
  | none => .panic "called unwrap on a None value"

/-- `U256::as_u64`: panics when the value does not fit in 64 bits. -/
def u256AsU64 (n : Nat) : PanicOr Nat :=
  if n < 2 ^ 64 then .value n else .panic "integer overflow when casting to u64"

/-- Bind for `PanicOr (Except String α)`: a panic or an `Err` short-circuits
(the `Err` case embeds Rust's `?` operator). -/
def prBindE {α β : Type} (x : PanicOr (Except String α))
    (f : α → PanicOr (Except String β)) : PanicOr (Except String β) :=
  match x with
  | .panic m => .panic m
  | .value (.error e) => .value (.error e)
  | .value (.ok a) => f a

/-- Lift a possibly-panicking computation into the panic-or-error setting. -/
def ofPanic {α : Type} : PanicOr α → PanicOr (Except String α)
  | .panic m => .panic m
  | .value a => .value (.ok a)

/-! ### Data model (main.rs) -/

/-- An `ethers` raw log as used by `parse_vault_event`: topic hashes (each an
`H256`, 32 bytes), opaque data payload, and optional block number and
transaction hash. -/
structure Log where
  topics : List (List Nat)
  data : List Nat
  block_number : Option Nat
  transaction_hash : Option (List Nat)
deriving DecidableEq

/-- A block header: optional number and a timestamp (a `U256` in ethers). -/
structure Block where
  number : Option Nat
  timestamp : Nat
deriving DecidableEq

/-- The `VaultEvent` struct from `src/indexer/src/main.rs` lines 11–22. -/
structure VaultEvent where
  event_type : String
  block_number : Nat
  transaction_hash : String
  sender : List Nat
  receiver : Option (List Nat)
  owner : Option (List Nat)
  assets : Nat
  shares : Nat
  timestamp : Nat
deriving DecidableEq

/-- The `VaultState` struct from `src/indexer/src/main.rs` lines 24–30. -/
structure VaultState where
  total_assets : Nat
  total_supply : Nat
  block_number : Nat
  timestamp : Nat
deriving DecidableEq

/-- Contents of a file written by the indexer. -/
inductive StoredValue where
  | event (e : VaultEvent)
  | state (s : VaultState)
deriving DecidableEq

/-- The files written so far: an association of file name to content. -/
abbrev Store := List (String × StoredValue)

/-- Write a file (`std::fs::write`): overwrite an existing file of the same
name, otherwise append a new one. -/
def storePut (store : Store) (key : String) (v : StoredValue) : Store :=
  if store.any (fun p => p.1 = key) then
    store.map (fun p => if p.1 = key then (key, v) else p)
  else store ++ [(key, v)]

/-! ### Event decoder (`VaultIndexer::parse_vault_event`, main.rs 76–131) -/

/-- The Deposit signature string (main.rs line 78). -/
def deposit_sig : String := "Deposit(address,address,uint256,uint256)"

/-- The Withdraw signature string (main.rs line 79). -/
def withdraw_sig : String := "Withdraw(address,address,address,uint256,uint256)"

/-- Topic 0 value matched by the Deposit arm: `keccak256(deposit_sig)`. -/
def depositSigHash : List Nat := keccak256 (asciiBytes deposit_sig)

/-- Topic 0 value matched by the Withdraw arm: `keccak256(withdraw_sig)`. -/
def withdrawSigHash : List Nat := keccak256 (asciiBytes withdraw_sig)

/-- Embedding of `VaultIndexer::parse_vault_event` (main.rs 76–131).  The
steps appear in the source's evaluation order; struct-literal fields that
call `unwrap` are evaluated after `assets`/`shares`, as in the Rust literal. -/
def parse_vault_event (log : Log) (timestamp : Nat) :
    PanicOr (Except String (Option VaultEvent)) :=
  if log.topics.isEmpty then .value (.ok none)
  else if log.topics.getD 0 [] = depositSigHash then
    PanicOr.bind (vecIndex log.topics 1) fun t1 =>
    PanicOr.bind (sliceFrom t1 12) fun s1 =>
    PanicOr.bind (addressFromSlice s1) fun sender =>
    PanicOr.bind (vecIndex log.topics 2) fun t2 =>
    PanicOr.bind (sliceFrom t2 12) fun s2 =>
    PanicOr.bind (addressFromSlice s2) fun owner =>
    PanicOr.bind (sliceTo log.data 32) fun d1 =>
    PanicOr.bind (u256FromBigEndian d1) fun assets =>
    PanicOr.bind (sliceFrom log.data 32) fun d2 =>
    PanicOr.bind (u256FromBigEndian d2) fun shares =>
    PanicOr.bind (optionUnwrap log.block_number) fun bn =>
    PanicOr.bind (optionUnwrap log.transaction_hash) fun txh =>
    .value (.ok (some
      { event_type := "Deposit", block_number := bn,
        transaction_hash := formatH256 txh, sender := sender,
        receiver := some owner, owner := some owner,
        assets := assets, shares := shares, timestamp := timestamp }))
  else if log.topics.getD 0 [] = withdrawSigHash then
    PanicOr.bind (vecIndex log.topics 1) fun t1 =>
    PanicOr.bind (sliceFrom t1 12) fun s1 =>
    PanicOr.bind (addressFromSlice s1) fun sender =>
    PanicOr.bind (vecIndex log.topics 2) fun t2 =>
    PanicOr.bind (sliceFrom t2 12) fun s2 =>
    PanicOr.bind (addressFromSlice s2) fun receiver =>
    PanicOr.bind (vecIndex log.topics 3) fun t3 =>
    PanicOr.bind (sliceFrom t3 12) fun s3 =>
    PanicOr.bind (addressFromSlice s3) fun owner =>
    PanicOr.bind (sliceTo log.data 32) fun d1 =>
    PanicOr.bind (u256FromBigEndian d1) fun assets =>
    PanicOr.bind (sliceFrom log.data 32) fun d2 =>
    PanicOr.bind (u256FromBigEndian d2) fun shares =>
    PanicOr.bind (optionUnwrap log.block_number) fun bn =>
    PanicOr.bind (optionUnwrap log.transaction_hash) fun txh =>
    .value (.ok (some
      { event_type := "Withdraw", block_number := bn,
        transaction_hash := formatH256 txh, sender := sender,
        receiver := some receiver, owner := some owner,
        assets := assets, shares := shares, timestamp := timestamp }))
  else .value (.ok none)

/-! ### Chain environment and state reader (main.rs 54–74) -/

/-- The chain-client primitives consumed by the indexer, and the facts about
the world needed to interpret them: `get_block` is the RPC block fetch
(transport error, then optional header); `totalAssetsAt`/`totalSupplyAt`
give the result of an `eth_call` of the corresponding view method evaluated
at a given block height; `headAtCall1`/`headAtCall2` are the chain's latest
block heights at the moments the two unpinned `.call()`s execute (`.call()`
without a block pin reads at latest); `writeOk` tells whether `fs::write`
succeeds. -/
structure ChainEnv where
  get_block : Nat → Except String (Option Block)
  totalAssetsAt : Nat → Except String Nat
  totalSupplyAt : Nat → Except String Nat
  headAtCall1 : Nat
  headAtCall2 : Nat
  writeOk : Bool

/-- Embedding of `VaultIndexer::get_vault_state` (main.rs 54–74): fetch the
block header for `block_number` (then `unwrap` it), issue the two view
calls — unpinned, hence evaluated at the head current at each call — and
assemble a `VaultState` whose `block_number` is the requested one. -/
def get_vault_state (env : ChainEnv) (block_number : Nat) :
    PanicOr (Except String VaultState) :=
  prBindE (.value (env.get_block block_number)) fun blockOpt =>
  prBindE (ofPanic (optionUnwrap blockOpt)) fun block =>
  prBindE (.value (env.totalAssetsAt env.headAtCall1)) fun total_assets =>
  prBindE (.value (env.totalSupplyAt env.headAtCall2)) fun total_supply =>
  prBindE (ofPanic (u256AsU64 block.timestamp)) fun ts =>
  .value (.ok { total_assets := total_assets, total_supply := total_supply,
                block_number := block_number, timestamp := ts })

/-! ### Persistence (main.rs 174–192) -/

/-- Embedding of `VaultIndexer::save_event` (main.rs 174–182): serialize and
write to `data/event_{now}.json`, where `now` is the wall-clock Unix second
at the moment of the write. -/
def save_event (env : ChainEnv) (store : Store) (ev : VaultEvent) (now : Nat) :
    Except String Store :=
  if env.writeOk then
    .ok (storePut store ("data/event_" ++ toString now ++ ".json") (.event ev))
  else .error "write failed"

/-- Embedding of `VaultIndexer::save_state` (main.rs 184–192): serialize and
write to `data/state_{now}.json`. -/
def save_state (env : ChainEnv) (store : Store) (st : VaultState) (now : Nat) :
    Except String Store :=
  if env.writeOk then
    .ok (storePut store ("data/state_" ++ toString now ++ ".json") (.state st))
  else .error "write failed"

/-! ### The run loop (main.rs 145–172) -/

/-- The new-block arm of the select loop (main.rs 148–156): `unwrap` the
block number, read the vault state, and — only when the read returned `Ok` —
persist it (the `?` on `save_state` propagates a write error out of `run`). -/
def handleNewBlock (env : ChainEnv) (store : Store) (now : Nat) (block : Block) :
    PanicOr (Except String Store) :=
  prBindE (ofPanic (optionUnwrap block.number)) fun n =>
  match get_vault_state env n with
  | .panic m => .panic m
  | .value (.error _) => .value (.ok store)
  | .value (.ok state) => .value (save_state env store state now)

/-- The new-log arm of the select loop (main.rs 159–169): fetch the log's
block (transport `?`, then `unwrap`), decode with `parse_vault_event`
(its `Err` would propagate via `?`), and persist a decoded event. -/
def handleNewLog (env : ChainEnv) (store : Store) (now : Nat) (log : Log) :
    PanicOr (Except String Store) :=
  prBindE (ofPanic (optionUnwrap log.block_number)) fun bn =>
  prBindE (.value (env.get_block bn)) fun blockOpt =>
  prBindE (ofPanic (optionUnwrap blockOpt)) fun block =>
  prBindE (ofPanic (u256AsU64 block.timestamp)) fun ts =>
  prBindE (parse_vault_event log ts) fun evOpt =>
  match evOpt with
  | none => .value (.ok store)
  | some ev => .value (save_event env store ev now)

/-- How a run of the loop ended: a panic, or an error propagated by `?`. -/
inductive TermKind where
  | panicked (msg : String)
  | errored (msg : String)
deriving DecidableEq

/-- Embedding of the `loop` with `tokio::select!` in `VaultIndexer::run`
(main.rs 145–172).  The two subscriptions are modelled as the finite lists
of items each will deliver before closing; an exhausted list is a closed
stream (its `next()` is `None`, so its select branch is disabled).  When
both streams still have items, `sched step` picks the branch (`select!`
chooses randomly); when only one does, its branch runs; when both are
closed, every branch is disabled and `select!` without an `else` branch
panics.  `step` also serves as the wall clock passed to the save calls,
advancing every iteration.  The result is the files written before
termination, and how the loop terminated. -/
def runLoop (env : ChainEnv) (sched : Nat → Bool) (step : Nat)
    (blocks : List Block) (logs : List Log) (store : Store) : Store × TermKind :=
  match blocks, logs with
  | [], [] => (store, .panicked "all branches are disabled and there is no else branch")
  | b :: bs, [] =>
    match handleNewBlock env store step b with
    | .panic m => (store, .panicked m)
    | .value (.error m) => (store, .errored m)
    | .value (.ok s2) => runLoop env sched (step + 1) bs [] s2
  | [], l :: ls =>
    match handleNewLog env store step l with
    | .panic m => (store, .panicked m)
    | .value (.error m) => (store, .errored m)
    | .value (.ok s2) => runLoop env sched (step + 1) [] ls s2
  | b :: bs, l :: ls =>
    if sched step then
      match handleNewBlock env store step b with
      | .panic m => (store, .panicked m)
      | .value (.error m) => (store, .errored m)
      | .value (.ok s2) => runLoop env sched (step + 1) bs (l :: ls) s2
    else
      match handleNewLog env store step l with
      | .panic m => (store, .panicked m)
      | .value (.error m) => (store, .errored m)
      | .value (.ok s2) => runLoop env sched (step + 1) (b :: bs) ls s2
termination_by blocks.length + logs.length

/-! ### The extended state reader (vault.rs 63–87) -/

/-- `Option::expect`: panics with the given message on `None`. -/
def optionExpect {α : Type} (o : Option α) (msg : String) : PanicOr α :=
  match o with
  | some a => .value a
  | none => .panic msg

/-- A `BlockNumber` argument: a concrete height or the `Latest` tag. -/
inductive BlockTag where
  | number (n : Nat)
  | latest
deriving DecidableEq

/-- The `VaultState` struct of `vault_indexer_core` used by
`src/vault-indexer/crates/indexer/src/vault.rs`. -/
structure VaultState2 where
  block_number : Nat
  timestamp : Nat
  total_assets : Nat
  total_supply : Nat
  rate : Nat
  asset_address : List Nat
  atoken_address : List Nat
  reward_tokens : List (List Nat)
deriving DecidableEq

/-- Chain-client primitives for the vault.rs variant: one result function per
view method, evaluated at a given block height, and `headAt i` — the chain's
latest block height at the moment the `i`-th (0-based) unpinned sub-call of
`get_vault_state` executes. -/
structure ChainEnv2 where
  get_block : BlockTag → Except String (Option Block)
  totalAssetsAt : Nat → Except String Nat
  totalSupplyAt : Nat → Except String Nat
  rateAt : Nat → Except String Nat
  assetAt : Nat → Except String (List Nat)
  atokenAt : Nat → Except String (List Nat)
  rewardTokensAt : Nat → Except String (List (List Nat))
  headAt : Nat → Nat

/-- Embedding of the vault.rs `VaultIndexer::get_vault_state` (vault.rs
63–87): six unpinned view calls — each evaluated at the head current when it
executes — then the block fetch for the given tag, an `expect` unwrap, and
assembly of the extended snapshot. -/
def vault2_get_vault_state (env : ChainEnv2) (block : BlockTag) :
    PanicOr (Except String VaultState2) :=
  prBindE (.value (env.totalAssetsAt (env.headAt 0))) fun total_assets =>
  prBindE (.value (env.totalSupplyAt (env.headAt 1))) fun total_supply =>
  prBindE (.value (env.rateAt (env.headAt 2))) fun rate =>
  prBindE (.value (env.assetAt (env.headAt 3))) fun asset_address =>
  prBindE (.value (env.atokenAt (env.headAt 4))) fun atoken_address =>
  prBindE (.value (env.rewardTokensAt (env.headAt 5))) fun reward_tokens =>
  prBindE (.value (env.get_block block)) fun blockOpt =>
  prBindE (ofPanic (optionExpect blockOpt "Block not found")) fun block_details =>
  prBindE (ofPanic (optionUnwrap block_details.number)) fun bn =>
  prBindE (ofPanic (u256AsU64 block_details.timestamp)) fun ts =>
  .value (.ok { block_number := bn, timestamp := ts,
                total_assets := total_assets, total_supply := total_supply,
                rate := rate, asset_address := asset_address,
                atoken_address := atoken_address, reward_tokens := reward_tokens })

/-! ### Concrete inputs used by witnesses and counterexamples -/

/-- Big-endian 32-byte encoding of an integer (an ABI `uint256` word). -/
def beBytes32 (n : Nat) : List Nat :=
  (List.range 32).map fun i => (n >>> (8 * (31 - i))) % 256

/-- Literal value of `keccak256("Deposit(address,address,uint256,uint256)")`,
proved equal to `depositSigHash` below. -/
def depositTopic0 : List Nat :=
  [220, 188, 28, 5, 36, 15, 49, 255, 58, 208, 103, 239, 30, 227, 92, 228,
   153, 119, 98, 117, 46, 58, 9, 82, 132, 117, 69, 68, 244, 199, 9, 215]

/-- Literal value of
`keccak256("Withdraw(address,address,address,uint256,uint256)")`, proved
equal to `withdrawSigHash` below. -/
def withdrawTopic0 : List Nat :=
  [251, 222, 121, 125, 32, 28, 104, 27, 145, 5, 101, 41, 17, 158, 11, 2,
   64, 124, 123, 185, 106, 74, 44, 117, 192, 31, 201, 102, 114, 50, 200, 219]

/-- A 20-byte address of `0xAA` bytes. -/
def addrAA : List Nat := List.replicate 20 0xAA

/-- A 20-byte address of `0xBB` bytes. -/
def addrBB : List Nat := List.replicate 20 0xBB

/-- A 32-byte transaction hash of `0x11` bytes. -/
def txh11 : List Nat := List.replicate 32 0x11

/-- A well-formed Deposit log: matching topic 0, two left-padded address
topics, and a 64-byte data payload encoding assets 100 and shares 95. -/
def goodDepositLog : Log :=
  { topics := [depositTopic0, List.replicate 12 0 ++ addrAA, List.replicate 12 0 ++ addrBB],
    data := beBytes32 100 ++ beBytes32 95,
    block_number := some 9,
    transaction_hash := some txh11 }

/-- A malformed log whose topic 0 matches the Deposit signature but which
carries no further topics and no data. -/
def malformedDepositLog : Log :=
  { topics := [depositTopic0], data := [],
    block_number := some 1, transaction_hash := some txh11 }

/-- A malformed log with the right topic count for Deposit but a data
payload shorter than the two 32-byte words the layout requires. -/
def shortDataDepositLog : Log :=
  { topics := [depositTopic0, List.replicate 12 0 ++ addrAA, List.replicate 12 0 ++ addrBB],
    data := [1, 2, 3],
    block_number := some 1, transaction_hash := some txh11 }

/-- The event `goodDepositLog` decodes to under an environment whose block 9
has timestamp 1000. -/
def expectedDepositEvent : VaultEvent :=
  { event_type := "Deposit", block_number := 9,
    transaction_hash := formatH256 txh11, sender := addrAA,
    receiver := some addrBB, owner := some addrBB,
    assets := 100, shares := 95, timestamp := 1000 }

/-- An environment where every primitive succeeds: every block exists with
timestamp 1000, total assets read 7, total supply read 3, the head sits at
block 9, and writes succeed. -/
def envOk : ChainEnv :=
  { get_block := fun n => .ok (some { number := some n, timestamp := 1000 }),
    totalAssetsAt := fun _ => .ok 7,
    totalSupplyAt := fun _ => .ok 3,
    headAtCall1 := 9, headAtCall2 := 9, writeOk := true }

/-- An environment for the torn-read counterexample: the vault's recorded
state differs between block 3 (assets 10, supply 20) and every other block
(assets 999, supply 888); the chain head is at block 5 when both unpinned
calls execute. -/
def envC3 : ChainEnv :=
  { get_block := fun n => .ok (some { number := some n, timestamp := 500 }),
    totalAssetsAt := fun k => .ok (if k = 3 then 10 else 999),
    totalSupplyAt := fun k => .ok (if k = 3 then 20 else 888),
    headAtCall1 := 5, headAtCall2 := 5, writeOk := true }

/-- The vault.rs analogue of `envC3`: state differs between block 3 and
other blocks; the head is at block 5 during all six sub-calls. -/
def envC3b : ChainEnv2 :=
  { get_block := fun t => .ok (some { number := some (match t with | .number n => n | .latest => 5),
                                      timestamp := 500 }),
    totalAssetsAt := fun k => .ok (if k = 3 then 10 else 999),
    totalSupplyAt := fun k => .ok (if k = 3 then 20 else 888),
    rateAt := fun _ => .ok 1,
    assetAt := fun _ => .ok addrAA,
    atokenAt := fun _ => .ok addrBB,
    rewardTokensAt := fun _ => .ok [],
    headAt := fun _ => 5 }

/-- An environment whose `totalAssets` call fails while everything else
succeeds. -/
def envFailTA : ChainEnv :=
  { get_block := fun n => .ok (some { number := some n, timestamp := 1000 }),
    totalAssetsAt := fun _ => .error "totalAssets call failed",
    totalSupplyAt := fun _ => .ok 3,
    headAtCall1 := 9, headAtCall2 := 9, writeOk := true }

/-- An environment whose calls are pinned-equivalent by circumstance: the
head sits exactly at block 3 during both calls. -/
def envHeadAt3 : ChainEnv :=
  { get_block := fun n => .ok (some { number := some n, timestamp := 500 }),
    totalAssetsAt := fun k => .ok (if k = 3 then 10 else 999),
    totalSupplyAt := fun k => .ok (if k = 3 then 20 else 888),
    headAtCall1 := 3, headAtCall2 := 3, writeOk := true }

/-- A block-5 header as delivered by the block subscription. -/
def block5 : Block := { number := some 5, timestamp := 1000 }

/-! ## Helper lemmas -/

/-- The literal Deposit topic-0 bytes equal the hash the code computes. -/
theorem depositSigHash_eq : depositSigHash = depositTopic0 := by decide

/-- The literal Withdraw topic-0 bytes equal the hash the code computes. -/
theorem withdrawSigHash_eq : withdrawSigHash = withdrawTopic0 := by decide

/-- Inversion for `PanicOr.bind` producing a value. -/
theorem PanicOr.bind_eq_value_iff {α β : Type} {p : PanicOr α} {f : α → PanicOr β} {b : β} :
    PanicOr.bind p f = .value b ↔ ∃ a, p = .value a ∧ f a = .value b := by
  cases p <;> simp [PanicOr.bind]

/-- Inversion for `vecIndex` producing a value. -/
theorem vecIndex_eq_value {α : Type} {xs : List α} {i : Nat} {a : α} :
    vecIndex xs i = .value a ↔ xs.get? i = some a := by
  unfold vecIndex
  cases xs.get? i <;> simp

/-- Inversion for `sliceFrom` producing a value. -/
theorem sliceFrom_eq_value {xs : List Nat} {i : Nat} {ys : List Nat} :
    sliceFrom xs i = .value ys ↔ i ≤ xs.length ∧ ys = xs.drop i := by
  unfold sliceFrom
  split <;> simp_all [eq_comm]

/-- Inversion for `addressFromSlice` producing a value. -/
theorem addressFromSlice_eq_value {xs ys : List Nat} :
    addressFromSlice xs = .value ys ↔ xs.length = 20 ∧ ys = xs := by
  unfold addressFromSlice
  split <;> simp_all [eq_comm]

/-! ## Claims -/

/-- Claim C1: the spec requires that a raw log whose first topic matches a
registered signature but whose topic count or data length does not fit the
signature's layout yields a decode error, which the pipeline logs and skips.
The code instead panics: with only the signature topic present, decoding
indexes `topics[1]` out of bounds; with a short data payload it slices
`data[..32]` out of range; and the run loop crashes with nothing persisted
instead of skipping the log and continuing. -/
theorem c1_malformed_log_panics :
    parse_vault_event malformedDepositLog 77 = .panic "index out of bounds" ∧
    parse_vault_event shortDataDepositLog 77 = .panic "range end index out of range" ∧
    runLoop envOk (fun _ => true) 0 [] [malformedDepositLog] [] =
      ([], .panicked "index out of bounds") := by
  refine ⟨?_, ?_, ?_⟩ <;>
    simp only [parse_vault_event, runLoop, handleNewLog, malformedDepositLog,
      shortDataDepositLog, envOk, depositSigHash_eq, withdrawSigHash_eq] <;>
    decide

/-- Claim C2: the spec requires idempotent event persistence — ingesting the
identical raw log twice must yield exactly one stored record, keyed by
(transaction hash, log index).  The code keys event files by the wall-clock
second of the write (`data/event_{now}.json`) and `VaultEvent` has no
log-index field, so the second delivery of the same log one second later
stores a second, duplicate record. -/
theorem c2_double_ingestion_duplicates :
    handleNewLog envOk [] 0 goodDepositLog =
      .value (.ok [("data/event_0.json", .event expectedDepositEvent)]) ∧
    handleNewLog envOk [("data/event_0.json", .event expectedDepositEvent)] 1 goodDepositLog =
      .value (.ok [("data/event_0.json", .event expectedDepositEvent),
                   ("data/event_1.json", .event expectedDepositEvent)]) := by
  constructor <;>
    simp only [handleNewLog, parse_vault_event, goodDepositLog, envOk,
      depositSigHash_eq, withdrawSigHash_eq] <;>
    decide

/-- Claim C5: the spec requires a monotone Sync Cursor under which a
duplicate `NewBlock(n)` notification is discarded with no state read and no
persistence.  The run loop maintains no cursor at all: the same block-5
notification delivered twice triggers two full state reads and persists two
snapshot files. -/
theorem c5_duplicate_block_reprocessed :
    runLoop envOk (fun _ => true) 0 [block5, block5] [] [] =
      ([("data/state_0.json", .state { total_assets := 7, total_supply := 3,
                                       block_number := 5, timestamp := 1000 }),
        ("data/state_1.json", .state { total_assets := 7, total_supply := 3,
                                       block_number := 5, timestamp := 1000 })],
       .panicked "all branches are disabled and there is no else branch") := by
  have h1 : handleNewBlock envOk [] 0 block5 =
      .value (.ok [("data/state_0.json", .state { total_assets := 7, total_supply := 3,
                                                  block_number := 5, timestamp := 1000 })]) := by
    decide
  have h2 : handleNewBlock envOk
      [("data/state_0.json", .state { total_assets := 7, total_supply := 3,
                                      block_number := 5, timestamp := 1000 })] 1 block5 =
      .value (.ok [("data/state_0.json", .state { total_assets := 7, total_supply := 3,
                                                  block_number := 5, timestamp := 1000 }),
                   ("data/state_1.json", .state { total_assets := 7, total_supply := 3,
                                                  block_number := 5, timestamp := 1000 })]) := by
    decide
  simp only [runLoop, h1, h2]

/-- Claim C3 counterexample: the claim says every read-only sub-call is
evaluated as of the given block reference, so the snapshot's totals reflect
the state at its `block_number`.  In `envC3` the chain state at block 3 is
assets 10 / supply 20, but the head sits at block 5 when the unpinned calls
execute, so the snapshot labelled block 3 carries 999 / 888 — and the
vault.rs variant behaves the same way. -/
theorem c3_counterexample :
    get_vault_state envC3 3 =
      .value (.ok { total_assets := 999, total_supply := 888,
                    block_number := 3, timestamp := 500 }) ∧
    envC3.totalAssetsAt 3 = .ok 10 ∧ envC3.totalSupplyAt 3 = .ok 20 ∧
    vault2_get_vault_state envC3b (.number 3) =
      .value (.ok { block_number := 3, timestamp := 500,
                    total_assets := 999, total_supply := 888, rate := 1,
                    asset_address := addrAA, atoken_address := addrBB,
                    reward_tokens := [] }) ∧
    envC3b.totalAssetsAt 3 = .ok 10 ∧
    ((999 : Nat) ≠ 10 ∧ (888 : Nat) ≠ 20) := by
  decide

/-- Claim C3 amended: each sub-call of the state reader is evaluated at the
chain's latest head at the moment that call executes, not at the given
block reference; the snapshot records the requested `block_number` next to
values read at those heads, so its totals reflect `block_number` only when
the head equals the requested block at both calls. -/
theorem c3_amended_reads_at_head (env : ChainEnv) (n a s : Nat) (blk : Block)
    (hb : env.get_block n = .ok (some blk)) (hts : blk.timestamp < 2 ^ 64)
    (hta : env.totalAssetsAt env.headAtCall1 = .ok a)
    (hsu : env.totalSupplyAt env.headAtCall2 = .ok s) :
    get_vault_state env n = .value (.ok
      { total_assets := a, total_supply := s, block_number := n,
        timestamp := blk.timestamp }) := by
  unfold get_vault_state
  rw [hb]
  norm_num at hts
  simp [prBindE, ofPanic, optionUnwrap, u256AsU64, hta, hsu, hts]

/-- Witness for the amended C3: with the head at block 3 during both calls,
the snapshot for block 3 carries exactly the block-3 state. -/
theorem c3_amended_witness :
    get_vault_state envHeadAt3 3 =
      .value (.ok { total_assets := 10, total_supply := 20,
                    block_number := 3, timestamp := 500 }) :=
  c3_amended_reads_at_head envHeadAt3 3 10 20 { number := some 3, timestamp := 500 }
    (by decide) (by decide) (by decide) (by decide)

/-- Claim C4: if any sub-query of the state-reader batch fails — the block
fetch, the totalAssets call, or the totalSupply call — then the whole read
returns an error and the new-block arm persists nothing: the store is
returned unchanged. -/
theorem c4_snapshot_atomicity (env : ChainEnv) (store : Store) (now : Nat)
    (b : Block) (n : Nat) (hn : b.number = some n)
    (hfail : (∃ m, env.get_block n = .error m) ∨
      ((∃ blk, env.get_block n = .ok (some blk)) ∧
        ((∃ m, env.totalAssetsAt env.headAtCall1 = .error m) ∨
         (∃ m, env.totalSupplyAt env.headAtCall2 = .error m)))) :
    (∃ m, get_vault_state env n = .value (.error m)) ∧
    handleNewBlock env store now b = .value (.ok store) := by
  have hgv : ∃ m, get_vault_state env n = .value (.error m) := by
    rcases hfail with ⟨m, hm⟩ | ⟨⟨blk, hblk⟩, hcall⟩
    · refine ⟨m, ?_⟩
      unfold get_vault_state
      rw [hm]
      rfl
    · rcases hcall with ⟨m, hta⟩ | ⟨m, hsu⟩
      · refine ⟨m, ?_⟩
        unfold get_vault_state
        rw [hblk]
        simp [prBindE, ofPanic, optionUnwrap, hta]
      · cases hta : env.totalAssetsAt env.headAtCall1 with
        | error m2 =>
          refine ⟨m2, ?_⟩
          unfold get_vault_state
          rw [hblk]
          simp [prBindE, ofPanic, optionUnwrap, hta]
        | ok a =>
          refine ⟨m, ?_⟩
          unfold get_vault_state
          rw [hblk]
          simp [prBindE, ofPanic, optionUnwrap, hta, hsu]
  obtain ⟨m, hm⟩ := hgv
  refine ⟨⟨m, hm⟩, ?_⟩
  unfold handleNewBlock
  rw [hn]
  simp only [optionUnwrap, ofPanic, prBindE]
  rw [hm]

/-- Witness for C4: with the totalAssets call failing, the state read for
block 5 errors and the new-block arm leaves the (empty) store unchanged. -/
theorem c4_witness :
    (∃ m, get_vault_state envFailTA 5 = .value (.error m)) ∧
    handleNewBlock envFailTA [] 0 block5 = .value (.ok []) :=
  c4_snapshot_atomicity envFailTA [] 0 block5 5 rfl
    (Or.inr ⟨⟨{ number := some 5, timestamp := 1000 }, rfl⟩,
      Or.inl ⟨"totalAssets call failed", rfl⟩⟩)

/-- Claim C6 counterexample: with the block stream closed from the start and
one valid Deposit log still arriving, the claim says the pipeline must
signal end-of-stream and stop instead of consuming the remaining source;
the loop instead processes the log (persisting its event) and then, with
both streams closed, panics inside `select!` rather than signalling
end-of-stream. -/
theorem c6_counterexample :
    runLoop envOk (fun _ => true) 0 [] [goodDepositLog] [] =
      ([("data/event_0.json", .event expectedDepositEvent)],
       .panicked "all branches are disabled and there is no else branch") := by
  have h1 : handleNewLog envOk [] 0 goodDepositLog =
      .value (.ok [("data/event_0.json", .event expectedDepositEvent)]) := by
    simp only [handleNewLog, parse_vault_event, goodDepositLog, envOk,
      depositSigHash_eq, withdrawSigHash_eq]
    decide
  simp only [runLoop, h1]

/-- Claim C6 amended: the loop never drops a delivered item, but when one
source closes it keeps consuming the other source alone — a new-block item
is processed and the loop continues even though the log stream is closed —
and when both sources are closed, every `select!` branch is disabled and
there is no else branch, so the process panics instead of signalling
end-of-stream. -/
theorem c6_amended_continues_on_open_source (env : ChainEnv) (sched : Nat → Bool)
    (b : Block) (bs : List Block) (now : Nat) (store s2 : Store)
    (h : handleNewBlock env store now b = .value (.ok s2)) :
    runLoop env sched now (b :: bs) [] store = runLoop env sched (now + 1) bs [] s2 ∧
    runLoop env sched now [] [] store =
      (store, .panicked "all branches are disabled and there is no else branch") := by
  constructor
  · rw [runLoop, h]
  · rw [runLoop]

/-- Witness for the amended C6: a concrete step with the log stream closed,
showing the block item is still processed and the loop continues. -/
theorem c6_amended_witness :
    runLoop envOk (fun _ => true) 0 [block5] [] [] =
      runLoop envOk (fun _ => true) 1 [] []
        [("data/state_0.json", .state { total_assets := 7, total_supply := 3,
                                        block_number := 5, timestamp := 1000 })] ∧
    runLoop envOk (fun _ => true) 0 [] [] [] =
      ([], .panicked "all branches are disabled and there is no else branch") :=
  c6_amended_continues_on_open_source envOk (fun _ => true) block5 [] 0 []
    [("data/state_0.json", .state { total_assets := 7, total_supply := 3,
                                    block_number := 5, timestamp := 1000 })] (by decide)

/-- Claim C7: a raw log with no topics, and a raw log whose first topic
matches neither registered signature, both decode to `Ok(None)` — "not a
vault event" — never an error. -/
theorem c7_unmatched_topic_is_not_vault_event (log : Log) (ts : Nat)
    (h : ∀ t0 ∈ log.topics.take 1, t0 ≠ depositSigHash ∧ t0 ≠ withdrawSigHash) :
    parse_vault_event log ts = .value (.ok none) := by
  unfold parse_vault_event
  cases hl : log.topics with
  | nil => rfl
  | cons t rest =>
    have ht := h t (by rw [hl]; simp)
    simp [ht.1, ht.2]

/-- Witness for C7: an all-zero first topic matches no signature and the
log decodes to "not a vault event". -/
theorem c7_witness :
    parse_vault_event { topics := [List.replicate 32 0], data := [],
                        block_number := none, transaction_hash := none } 0 =
      .value (.ok none) :=
  c7_unmatched_topic_is_not_vault_event _ 0
    (by simp only [depositSigHash_eq, withdrawSigHash_eq]; decide)

/-- Claim C8: a raw log whose first topic is the keccak-256 hash of the
Deposit signature, whose next two topics are 32-byte left-padded addresses
`a` and `b`, and whose data is the two concatenated 32-byte big-endian
integers 100 and 95, decodes to a Deposit event with sender `a`, receiver
and owner both `b`, assets 100 and shares 95. -/
theorem c8_deposit_scenario (a b txh : List Nat) (bn ts : Nat)
    (ha : a.length = 20) (hb : b.length = 20) :
    parse_vault_event
      { topics := [depositSigHash, List.replicate 12 0 ++ a, List.replicate 12 0 ++ b],
        data := beBytes32 100 ++ beBytes32 95,
        block_number := some bn, transaction_hash := some txh } ts =
    .value (.ok (some
      { event_type := "Deposit", block_number := bn,
        transaction_hash := formatH256 txh, sender := a,
        receiver := some b, owner := some b,
        assets := 100, shares := 95, timestamp := ts })) := by
  have hdrop : ∀ xs : List Nat, (List.replicate 12 (0 : Nat) ++ xs).drop 12 = xs := by
    intro xs
    simp
  have hd1 : sliceTo (beBytes32 100 ++ beBytes32 95) 32 = .value (beBytes32 100) := by decide
  have hd2 : u256FromBigEndian (beBytes32 100) = .value 100 := by decide
  have hd3 : List.drop 32 (beBytes32 100 ++ beBytes32 95) = beBytes32 95 := by decide
  have hd4 : u256FromBigEndian (beBytes32 95) = .value 95 := by decide
  have hl100 : (beBytes32 100).length = 32 := by decide
  have hl95 : (beBytes32 95).length = 32 := by decide
  unfold parse_vault_event
  simp [vecIndex, PanicOr.bind, sliceFrom, addressFromSlice, optionUnwrap,
    hdrop, ha, hb, hd1, hd2, hd3, hd4, hl100, hl95]

/-- Witness for C8: the scenario with addresses of `0xAA` and `0xBB` bytes. -/
theorem c8_witness :
    parse_vault_event
      { topics := [depositSigHash, List.replicate 12 0 ++ addrAA, List.replicate 12 0 ++ addrBB],
        data := beBytes32 100 ++ beBytes32 95,
        block_number := some 4, transaction_hash := some txh11 } 7 =
    .value (.ok (some
      { event_type := "Deposit", block_number := 4,
        transaction_hash := formatH256 txh11, sender := addrAA,
        receiver := some addrBB, owner := some addrBB,
        assets := 100, shares := 95, timestamp := 7 })) :=
  c8_deposit_scenario addrAA addrBB txh11 4 7 (by decide) (by decide)

/-- Claim C9: every log the decoder classifies as a Deposit yields an event
whose `receiver` equals its `owner`, both being `some` of the address taken
from the low 20 bytes of `topics[2]`. -/
theorem c9_deposit_receiver_eq_owner (log : Log) (ts : Nat) (e : VaultEvent)
    (hp : parse_vault_event log ts = .value (.ok (some e)))
    (hd : e.event_type = "Deposit") :
    ∃ t2, log.topics.get? 2 = some t2 ∧
      e.receiver = some (t2.drop 12) ∧ e.owner = some (t2.drop 12) ∧
      e.receiver = e.owner := by
  unfold parse_vault_event at hp
  split at hp
  · simp at hp
  split at hp
  · obtain ⟨t1, h1, hp⟩ := PanicOr.bind_eq_value_iff.mp hp
    obtain ⟨s1, h2, hp⟩ := PanicOr.bind_eq_value_iff.mp hp
    obtain ⟨sender, h3, hp⟩ := PanicOr.bind_eq_value_iff.mp hp
    obtain ⟨t2, h4, hp⟩ := PanicOr.bind_eq_value_iff.mp hp
    obtain ⟨s2, h5, hp⟩ := PanicOr.bind_eq_value_iff.mp hp
    obtain ⟨owner, h6, hp⟩ := PanicOr.bind_eq_value_iff.mp hp
    obtain ⟨d1, h7, hp⟩ := PanicOr.bind_eq_value_iff.mp hp
    obtain ⟨assets, h8, hp⟩ := PanicOr.bind_eq_value_iff.mp hp
    obtain ⟨d2, h9, hp⟩ := PanicOr.bind_eq_value_iff.mp hp
    obtain ⟨shares, h10, hp⟩ := PanicOr.bind_eq_value_iff.mp hp
    obtain ⟨bn, h11, hp⟩ := PanicOr.bind_eq_value_iff.mp hp
    obtain ⟨txh, h12, hp⟩ := PanicOr.bind_eq_value_iff.mp hp
    simp only [PanicOr.value.injEq, Except.ok.injEq, Option.some.injEq] at hp
    obtain ⟨hlen2, hs2⟩ := sliceFrom_eq_value.mp h5
    obtain ⟨_, how⟩ := addressFromSlice_eq_value.mp h6
    refine ⟨t2, vecIndex_eq_value.mp h4, ?_, ?_, ?_⟩ <;>
      rw [← hp] <;> simp [how, hs2]
  split at hp
  · obtain ⟨t1, h1, hp⟩ := PanicOr.bind_eq_value_iff.mp hp
    obtain ⟨s1, h2, hp⟩ := PanicOr.bind_eq_value_iff.mp hp
    obtain ⟨sender, h3, hp⟩ := PanicOr.bind_eq_value_iff.mp hp
    obtain ⟨t2, h4, hp⟩ := PanicOr.bind_eq_value_iff.mp hp
    obtain ⟨s2, h5, hp⟩ := PanicOr.bind_eq_value_iff.mp hp
    obtain ⟨receiver, h6, hp⟩ := PanicOr.bind_eq_value_iff.mp hp
    obtain ⟨t3, h7, hp⟩ := PanicOr.bind_eq_value_iff.mp hp
    obtain ⟨s3, h8, hp⟩ := PanicOr.bind_eq_value_iff.mp hp
    obtain ⟨owner, h9, hp⟩ := PanicOr.bind_eq_value_iff.mp hp
    obtain ⟨d1, h10, hp⟩ := PanicOr.bind_eq_value_iff.mp hp
    obtain ⟨assets, h11, hp⟩ := PanicOr.bind_eq_value_iff.mp hp
    obtain ⟨d2, h12, hp⟩ := PanicOr.bind_eq_value_iff.mp hp
    obtain ⟨shares, h13, hp⟩ := PanicOr.bind_eq_value_iff.mp hp
    obtain ⟨bn, h14, hp⟩ := PanicOr.bind_eq_value_iff.mp hp
    obtain ⟨txh, h15, hp⟩ := PanicOr.bind_eq_value_iff.mp hp
    simp only [PanicOr.value.injEq, Except.ok.injEq, Option.some.injEq] at hp
    rw [← hp] at hd
    simp at hd
  · simp at hp

/-- Witness for C9: the good Deposit log decodes to an event whose receiver
and owner both hold the address from the low 20 bytes of its third topic. -/
theorem c9_witness :
    ∃ t2, goodDepositLog.topics.get? 2 = some t2 ∧
      expectedDepositEvent.receiver = some (t2.drop 12) ∧
      expectedDepositEvent.owner = some (t2.drop 12) ∧
      expectedDepositEvent.receiver = expectedDepositEvent.owner :=
  c9_deposit_receiver_eq_owner goodDepositLog 1000 expectedDepositEvent
    (by
      simp only [parse_vault_event, goodDepositLog, depositSigHash_eq, withdrawSigHash_eq]
      decide)
    (by decide)

/-- Claim C10: on every input where the decoder terminates without a panic,
its result is `Ok` — either `Ok(Some event)` or `Ok(None)`; the `Err`
branch of its `Result` return type is never produced. -/
theorem c10_decoder_never_returns_err (log : Log) (ts : Nat) (msg : String) :
    parse_vault_event log ts ≠ .value (.error msg) := by
  intro hp
  unfold parse_vault_event at hp
  split at hp
  · simp at hp
  split at hp
  · obtain ⟨_, -, hp⟩ := PanicOr.bind_eq_value_iff.mp hp
    obtain ⟨_, -, hp⟩ := PanicOr.bind_eq_value_iff.mp hp
    obtain ⟨_, -, hp⟩ := PanicOr.bind_eq_value_iff.mp hp
    obtain ⟨_, -, hp⟩ := PanicOr.bind_eq_value_iff.mp hp
    obtain ⟨_, -, hp⟩ := PanicOr.bind_eq_value_iff.mp hp
    obtain ⟨_, -, hp⟩ := PanicOr.bind_eq_value_iff.mp hp
    obtain ⟨_, -, hp⟩ := PanicOr.bind_eq_value_iff.mp hp
    obtain ⟨_, -, hp⟩ := PanicOr.bind_eq_value_iff.mp hp
    obtain ⟨_, -, hp⟩ := PanicOr.bind_eq_value_iff.mp hp
    obtain ⟨_, -, hp⟩ := PanicOr.bind_eq_value_iff.mp hp
    obtain ⟨_, -, hp⟩ := PanicOr.bind_eq_value_iff.mp hp
    obtain ⟨_, -, hp⟩ := PanicOr.bind_eq_value_iff.mp hp
    simp at hp
  split at hp
  · obtain ⟨_, -, hp⟩ := PanicOr.bind_eq_value_iff.mp hp
    obtain ⟨_, -, hp⟩ := PanicOr.bind_eq_value_iff.mp hp
    obtain ⟨_, -, hp⟩ := PanicOr.bind_eq_value_iff.mp hp
    obtain ⟨_, -, hp⟩ := PanicOr.bind_eq_value_iff.mp hp
    obtain ⟨_, -, hp⟩ := PanicOr.bind_eq_value_iff.mp hp
    obtain ⟨_, -, hp⟩ := PanicOr.bind_eq_value_iff.mp hp
    obtain ⟨_, -, hp⟩ := PanicOr.bind_eq_value_iff.mp hp
    obtain ⟨_, -, hp⟩ := PanicOr.bind_eq_value_iff.mp hp
    obtain ⟨_, -, hp⟩ := PanicOr.bind_eq_value_iff.mp hp
    obtain ⟨_, -, hp⟩ := PanicOr.bind_eq_value_iff.mp hp
    obtain ⟨_, -, hp⟩ := PanicOr.bind_eq_value_iff.mp hp
    obtain ⟨_, -, hp⟩ := PanicOr.bind_eq_value_iff.mp hp
    obtain ⟨_, -, hp⟩ := PanicOr.bind_eq_value_iff.mp hp
    obtain ⟨_, -, hp⟩ := PanicOr.bind_eq_value_iff.mp hp
    obtain ⟨_, -, hp⟩ := PanicOr.bind_eq_value_iff.mp hp
    simp at hp
  · simp at hp

end VaultIndexer
